import Mathlib

/-!
Verification of the GoodDeeds credential-authentication and route-authorization
subsystem against its implementation.

The TypeScript sources are shallowly embedded:
JavaScript strings are modelled as lists of characters (`JsStr`), so that the
character-level operations of the code (prefix tests, `substring`, `toLowerCase`,
`trim`, regex character classes) become executable list functions; `undefined`
and `null` become `Option`; thrown exceptions become `Except` values that the
embedded `try`/`catch` sites consume.  Each definition is translated from the
named source function.
-/

set_option maxRecDepth 8192
set_option linter.unusedVariables false

/-- JavaScript strings, modelled as their character sequences. -/
abbrev JsStr := List Char

/-- Characters of a Lean string literal, used to embed JavaScript string literals. -/
def lit (s : String) : JsStr := s.data

/-- Characterization of `List.isPrefixOf` (the embedding of JavaScript
`String.prototype.startsWith`) by an explicit append decomposition. -/
theorem isPrefixOf_iff_append {p l : JsStr} :
    p.isPrefixOf l = true ↔ ∃ t, l = p ++ t := by
  induction p generalizing l with
  | nil =>
    simp [List.isPrefixOf]
  | cons a as ih =>
    cases l with
    | nil => simp [List.isPrefixOf]
    | cons b bs =>
      simp only [List.isPrefixOf, Bool.and_eq_true, beq_iff_eq, ih, List.cons_append]
      constructor
      · rintro ⟨rfl, t, rfl⟩
        exact ⟨t, rfl⟩
      · rintro ⟨t, ht⟩
        cases ht
        exact ⟨rfl, t, rfl⟩

/-! ## Route Gate: the edge middleware (src/src/lib/apiResponse.ts, `middleware`) -/

/-- The protected route prefixes configured in the middleware source:
`const protectedRoutes = ['/create', '/profile', '/messages', '/dashboard']`. -/
def protectedRoutes : List JsStr :=
  [lit "/create", lit "/profile", lit "/messages", lit "/dashboard"]

/-- Result of the edge middleware: either a redirect (`NextResponse.redirect`)
or pass-through (`NextResponse.next`). -/
inductive GateResult where
  | redirect (target : JsStr)
  | next
deriving DecidableEq

/-- Embedding of `middleware(request)`.  `pathname` is `request.nextUrl.pathname`;
`cookie` is `request.cookies.get('authToken')?.value`, `none` when the cookie is
absent.  The JavaScript test `if (!authToken)` is falsy for both the absent
cookie and the empty string. -/
def middleware (pathname : JsStr) (cookie : Option JsStr) : GateResult :=
  if protectedRoutes.any (fun route => route.isPrefixOf pathname) then
    match cookie with
    | none => GateResult.redirect (lit "/login")
    | some authToken =>
      if authToken.isEmpty then GateResult.redirect (lit "/login") else GateResult.next
  else
    GateResult.next

/-- Claim C2: for every inbound navigation, the middleware redirects to `/login`
exactly when the path starts with one of the configured protected prefixes and
the `authToken` cookie is absent or empty; it passes the request through for any
non-empty cookie value and for every non-protected path. -/
theorem middleware_redirect_iff_protected_and_tokenless (p : JsStr) (c : Option JsStr) :
    (middleware p c = GateResult.redirect (lit "/login") ↔
      (protectedRoutes.any (fun r => r.isPrefixOf p) = true ∧ (c = none ∨ c = some []))) ∧
    (middleware p c = GateResult.next ↔
      (protectedRoutes.any (fun r => r.isPrefixOf p) = false ∨ ∃ v, c = some v ∧ v ≠ [])) := by
  by_cases hp : protectedRoutes.any (fun r => r.isPrefixOf p) = true
  · cases c with
    | none => simp [middleware, hp]
    | some v =>
      cases v with
      | nil => simp [middleware, hp]
      | cons a as => simp [middleware, hp]
  · rw [Bool.not_eq_true] at hp
    cases c with
    | none => simp [middleware, hp]
    | some v => simp [middleware, hp]

/-! ## Token extraction and request authentication (src/unnamed/part_004) -/

/-- JWT payload structure (`JwtPayload` in the auth module): subject id, email,
optional issued-at and expiry timestamps (seconds). -/
structure JwtPayload where
  id : JsStr
  email : JsStr
  iat : Option Nat := none
  exp : Option Nat := none
deriving DecidableEq

/-- Authentication result type (`AuthResult` in the auth module). -/
structure AuthResult where
  success : Bool
  user : Option JwtPayload := none
  error : Option String := none
deriving DecidableEq

/-- Embedding of `extractToken(req)`: reads the `authorization` header (absent
headers give `none`), requires the case-sensitive prefix `"Bearer "` and returns
`authHeader.substring(7)`. -/
def extractToken (authorizationHeader : Option JsStr) : Option JsStr :=
  match authorizationHeader with
  | none => none
  | some authHeader =>
    if (lit "Bearer ").isPrefixOf authHeader then some (authHeader.drop 7) else none

/-- Embedding of `authenticateRequest(req)`: composes `extractToken` with token
verification.  The JavaScript guard `if (!token)` treats both `null` and the
empty string as missing.  The verifier applied to the extracted token is passed
as a parameter, so a statement quantified over `verify` shows the verifier is
never consulted on that path. -/
def authenticateRequest (verify : JsStr → AuthResult) (authorizationHeader : Option JsStr) :
    AuthResult :=
  match extractToken authorizationHeader with
  | none => { success := false, error := some "No authentication token provided" }
  | some token =>
    if token.isEmpty then { success := false, error := some "No authentication token provided" }
    else verify token

/-- Claim C8: `extractToken` returns a token exactly when the authorization
header is the case-sensitive `"Bearer "` prefix followed by that token (it
returns everything after the 7 prefix characters); a missing header or a
differently-cased prefix such as `"bearer "` yields `none`, without an error. -/
theorem extractToken_bearer_characterization (h : Option JsStr) (t : JsStr) :
    (extractToken h = some t ↔ h = some (lit "Bearer " ++ t)) ∧
    extractToken (some (lit "bearer x")) = none ∧
    extractToken none = none := by
  refine ⟨⟨?_, ?_⟩, by decide, rfl⟩
  · intro hx
    cases h with
    | none => simp [extractToken] at hx
    | some a =>
      simp only [extractToken] at hx
      split at hx
      · rename_i hp
        obtain ⟨t0, rfl⟩ := isPrefixOf_iff_append.mp hp
        have hd : (lit "Bearer " ++ t0).drop 7 = t0 := by
          rw [show (7 : Nat) = (lit "Bearer ").length from rfl]
          exact List.drop_left _ _
        rw [hd] at hx
        cases hx
        rfl
      · cases hx
  · rintro rfl
    simp only [extractToken]
    rw [if_pos (isPrefixOf_iff_append.mpr ⟨t, rfl⟩)]
    rw [show (7 : Nat) = (lit "Bearer ").length from rfl]
    exact congrArg some (List.drop_left _ _)

/-- Claim C10: a request whose authorization header is exactly `"Bearer "` has
`extractToken` return the empty token, and `authenticateRequest` answers the
missing-token failure for every possible verifier, so the empty token never
reaches verification. -/
theorem authenticateRequest_empty_bearer_missing_token (verify : JsStr → AuthResult) :
    extractToken (some (lit "Bearer ")) = some [] ∧
    authenticateRequest verify (some (lit "Bearer ")) =
      { success := false, user := none, error := some "No authentication token provided" } :=
  ⟨rfl, rfl⟩

/-! ## Credential Validator (src/src/lib/validators.ts, zod 4 schemas) -/

/-- The apostrophe character, U+0027. -/
def apostrophe : Char := Char.ofNat 39

/-- Character class `[A-Za-z0-9_'+\-.]` of the local-part body in the zod 4
default email regular expression. -/
def emailLocalChar (c : Char) : Bool :=
  c.isAlpha || c.isDigit || c = '_' || c = apostrophe || c = '+' || c = '-' || c = '.'

/-- Character class `[A-Za-z0-9_+\-]` required of the final local-part
character in the zod 4 default email regular expression. -/
def emailLocalEndChar (c : Char) : Bool :=
  c.isAlpha || c.isDigit || c = '_' || c = '+' || c = '-'

/-- Character class `[A-Za-z0-9\-]` of domain-label bodies. -/
def emailLabelChar (c : Char) : Bool := c.isAlpha || c.isDigit || c = '-'

/-- The regex piece `([A-Za-z0-9_'+\-.]*)[A-Za-z0-9_+\-]`: every character but
the last in the local class, the last in the restricted class. -/
def emailLocalOk : JsStr → Bool
  | [] => false
  | [c] => emailLocalEndChar c
  | c :: rest => emailLocalChar c && emailLocalOk rest

/-- The regex piece `[A-Za-z0-9][A-Za-z0-9\-]*` for one domain label. -/
def emailLabelOk : JsStr → Bool
  | [] => false
  | c :: rest => (c.isAlpha || c.isDigit) && rest.all emailLabelChar

/-- The regex piece `[A-Za-z]{2,}` for the final domain label. -/
def emailTldOk (l : JsStr) : Bool :=
  decide (2 ≤ l.length) && l.all Char.isAlpha

/-- Whether the string contains two consecutive dots (the `(?!.*\.\.)`
negative lookahead of the email regex). -/
def hasDoubleDot : JsStr → Bool
  | c1 :: c2 :: rest => (c1 = '.' && c2 = '.') || hasDoubleDot (c2 :: rest)
  | _ => false

/-- The domain piece `([A-Za-z0-9][A-Za-z0-9\-]*\.)+[A-Za-z]{2,}`,
characterized by splitting at the dots: at least two labels, all leading labels
well-formed, and the final label an alphabetic TLD of length at least two. -/
def emailDomainOk (d : JsStr) : Bool :=
  match (d.splitOn '.').reverse with
  | [] => false
  | tld :: revInit => decide (revInit ≠ []) && emailTldOk tld && revInit.all emailLabelOk

/-- The zod 4 default email format check used by `z.string().email(...)`:
`/^(?!\.)(?!.*\.\.)([A-Za-z0-9_'+\-.]*)[A-Za-z0-9_+\-]@([A-Za-z0-9][A-Za-z0-9\-]*\.)+[A-Za-z]{2,}$/`.
No character class admits `@`, so the string splits at a unique `@`. -/
def zodEmailCheck (s : JsStr) : Bool :=
  (match s with | [] => false | c :: _ => c != '.') &&
  !hasDoubleDot s &&
  (match s.splitOn '@' with
   | [localPart, domainPart] => emailLocalOk localPart && emailDomainOk domainPart
   | _ => false)

/-- Issues raised by `emailSchema` in check order: the `.email('Invalid email
format')` format check runs first, on the raw input; the `.toLowerCase()` and
`.trim()` overwrites that follow never produce issues. -/
def emailIssues (raw : JsStr) : List String :=
  if zodEmailCheck raw then [] else ["Invalid email format"]

/-- Per-character embedding of JavaScript `String.prototype.toLowerCase` on the
basic latin letters (`Char.toLower` maps `A`-`Z` to `a`-`z`). -/
def jsToLowerCase (s : JsStr) : JsStr := s.map Char.toLower

/-- Embedding of JavaScript `String.prototype.trim`: strip whitespace from both
ends. -/
def jsTrim (s : JsStr) : JsStr :=
  ((s.dropWhile Char.isWhitespace).reverse.dropWhile Char.isWhitespace).reverse

/-- The value produced by `emailSchema` on an accepted input: the
`.toLowerCase()` overwrite runs first, then `.trim()`. -/
def emailTransform (raw : JsStr) : JsStr := jsTrim (jsToLowerCase raw)

/-- The fixed special-character set `[@$!%*?&]` of `passwordSchema`. -/
def isPwSpecialChar (c : Char) : Bool :=
  c = '@' || c = '$' || c = '!' || c = '%' || c = '*' || c = '?' || c = '&'

/-- Issues raised by `passwordSchema` in check order: `.min(8)`, then the four
regex checks `[A-Z]`, `[a-z]`, `\d`, `[@$!%*?&]`.  zod runs every check and
aggregates all failures. -/
def passwordIssues (p : JsStr) : List String :=
  (if p.length < 8 then ["Password must be at least 8 characters long"] else []) ++
  (if p.any Char.isUpper then [] else ["Password must contain at least one uppercase letter"]) ++
  (if p.any Char.isLower then [] else ["Password must contain at least one lowercase letter"]) ++
  (if p.any Char.isDigit then [] else ["Password must contain at least one number"]) ++
  (if p.any isPwSpecialChar then [] else
    ["Password must contain at least one special character (@$!%*?&)"])

/-- Character class `[a-zA-Z\s\-']` of `nameSchema`. -/
def nameChar (c : Char) : Bool :=
  c.isAlpha || c.isWhitespace || c = '-' || c = apostrophe

/-- The `nameSchema` regex `/^[a-zA-Z\s\-']+$/`. -/
def nameRegexCheck (s : JsStr) : Bool := !s.isEmpty && s.all nameChar

/-- Issues raised by `nameSchema` in check order: `.min(2)`, `.max(100)`, regex. -/
def nameIssues (n : JsStr) : List String :=
  (if n.length < 2 then ["Name must be at least 2 characters long"] else []) ++
  (if 100 < n.length then ["Name must be at most 100 characters long"] else []) ++
  (if nameRegexCheck n then [] else
    ["Name can only contain letters, spaces, hyphens, and apostrophes"])

/-- A signup request body with the three expected string fields. -/
structure SignupBody where
  name : JsStr
  email : JsStr
  password : JsStr
deriving DecidableEq

/-- Issues of `signupSchema` in shape order (name, email, password), each
tagged with its single-segment path as joined by `issue.path.join('.')`. -/
def signupIssues (b : SignupBody) : List (String × String) :=
  (nameIssues b.name).map (fun m => ("name", m)) ++
  (emailIssues b.email).map (fun m => ("email", m)) ++
  (passwordIssues b.password).map (fun m => ("password", m))

/-- The parsed data of `signupSchema` on success: the email field is replaced
by its normalized form, the other fields are returned unchanged. -/
def signupTransform (b : SignupBody) : SignupBody :=
  { b with email := emailTransform b.email }

/-- A login request body. -/
structure LoginBody where
  email : JsStr
  password : JsStr
deriving DecidableEq

/-- Issues of `loginSchema` in shape order: `emailSchema`, then
`z.string().min(1, 'Password is required')`. -/
def loginIssues (b : LoginBody) : List (String × String) :=
  (emailIssues b.email).map (fun m => ("email", m)) ++
  (if b.password.length < 1 then [("password", "Password is required")] else [])

/-- The parsed data of `loginSchema` on success. -/
def loginTransform (b : LoginBody) : LoginBody :=
  { b with email := emailTransform b.email }

/-- JavaScript object property assignment `rec[k] = v` on a record modelled as
an association list: overwrite in place when the key exists, append otherwise. -/
def jsObjSet (rec : List (String × String)) (k v : String) : List (String × String) :=
  if rec.any (fun p => p.1 == k) then rec.map (fun p => if p.1 = k then (k, v) else p)
  else rec ++ [(k, v)]

/-- The `forEach` loop of `validateInput`: `errors[path] = issue.message` for
each issue in order, starting from the empty record. -/
def buildErrors (issues : List (String × String)) : List (String × String) :=
  issues.foldl (fun r i => jsObjSet r i.1 i.2) []

/-- The discriminated result of `validateInput`: `{success: true, data}` or
`{success: false, errors}`. -/
inductive ValidationResult (α : Type) where
  | ok (data : α)
  | err (errors : List (String × String))
deriving DecidableEq

/-- Embedding of `validateInput(schema, data)` given the issue list and parsed
data of the schema: success exactly when the schema raised no issue, and the
error record collapsed by the `forEach` assignment loop otherwise. -/
def validateInput {α : Type} (issues : List (String × String)) (parsed : α) :
    ValidationResult α :=
  if issues.isEmpty then .ok parsed else .err (buildErrors issues)

/-- `validateInput(signupSchema, body)`. -/
def validateSignup (b : SignupBody) : ValidationResult SignupBody :=
  validateInput (signupIssues b) (signupTransform b)

/-- `validateInput(loginSchema, body)`. -/
def validateLogin (b : LoginBody) : ValidationResult LoginBody :=
  validateInput (loginIssues b) (loginTransform b)

/-- JavaScript object property read `rec[f]` on the association-list model. -/
def recLookup (f : String) : List (String × String) → Option String
  | [] => none
  | (k, v) :: rest => if f = k then some v else recLookup f rest

/-- The message of the last issue for field `f` in an issue list. -/
def lastMsg (f : String) : List (String × String) → Option String
  | [] => none
  | i :: rest =>
    match lastMsg f rest with
    | some m => some m
    | none => if i.1 = f then some i.2 else none

theorem recLookup_overwrite_ne (r : List (String × String)) (k v f : String) (hfk : f ≠ k) :
    recLookup f (r.map (fun p => if p.1 = k then (k, v) else p)) = recLookup f r := by
  induction r with
  | nil => rfl
  | cons hd tl ih =>
    obtain ⟨a, b⟩ := hd
    simp only [List.map_cons]
    by_cases hak : a = k
    · subst hak
      rw [if_pos rfl]
      simp [recLookup, hfk, ih]
    · rw [if_neg hak]
      by_cases hfa : f = a <;> simp [recLookup, hfa, ih]

theorem recLookup_overwrite_eq (r : List (String × String)) (k v : String)
    (hany : r.any (fun p => p.1 == k) = true) :
    recLookup k (r.map (fun p => if p.1 = k then (k, v) else p)) = some v := by
  induction r with
  | nil => simp at hany
  | cons hd tl ih =>
    obtain ⟨a, b⟩ := hd
    simp only [List.map_cons]
    by_cases hak : a = k
    · rw [if_pos hak]
      simp [recLookup]
    · rw [if_neg hak]
      have htl : tl.any (fun p => p.1 == k) = true := by
        simp only [List.any_cons, Bool.or_eq_true, beq_iff_eq] at hany
        rcases hany with h1 | h2
        · exact absurd h1 hak
        · exact h2
      have hka : ¬(k = a) := fun h => hak h.symm
      simp [recLookup, hka, ih htl]

theorem recLookup_append (f : String) (r s : List (String × String)) :
    recLookup f (r ++ s) =
      match recLookup f r with
      | some x => some x
      | none => recLookup f s := by
  induction r with
  | nil => cases hs : recLookup f s <;> simp [recLookup, hs]
  | cons hd tl ih =>
    obtain ⟨a, b⟩ := hd
    by_cases hfa : f = a <;> simp [recLookup, hfa, ih]

theorem recLookup_none_of_not_any (r : List (String × String)) (k : String)
    (hany : r.any (fun p => p.1 == k) = false) :
    recLookup k r = none := by
  induction r with
  | nil => rfl
  | cons hd tl ih =>
    obtain ⟨a, b⟩ := hd
    simp only [List.any_cons, Bool.or_eq_false_iff] at hany
    have ha : ¬(k = a) := fun h => (by simpa using hany.1 : ¬(a = k)) h.symm
    simp [recLookup, ha, ih hany.2]

theorem recLookup_jsObjSet (r : List (String × String)) (k v f : String) :
    recLookup f (jsObjSet r k v) = if f = k then some v else recLookup f r := by
  unfold jsObjSet
  split
  · rename_i hany
    by_cases hfk : f = k
    · subst hfk
      rw [if_pos rfl]
      exact recLookup_overwrite_eq _ _ _ hany
    · rw [if_neg hfk]
      exact recLookup_overwrite_ne _ _ _ _ hfk
  · rename_i hany
    have hany2 : r.any (fun p => p.1 == k) = false := by
      rwa [Bool.not_eq_true] at hany
    by_cases hfk : f = k
    · subst hfk
      rw [if_pos rfl, recLookup_append, recLookup_none_of_not_any _ _ hany2]
      simp [recLookup]
    · rw [if_neg hfk, recLookup_append]
      cases hr : recLookup f r with
      | some x => simp
      | none => simp [recLookup, hfk]

theorem recLookup_foldl (f : String) (l : List (String × String)) :
    ∀ r, recLookup f (l.foldl (fun acc i => jsObjSet acc i.1 i.2) r) =
      match lastMsg f l with
      | some m => some m
      | none => recLookup f r := by
  induction l with
  | nil => intro r; rfl
  | cons i rest ih =>
    intro r
    simp only [List.foldl_cons]
    rw [ih]
    cases hrest : lastMsg f rest with
    | some m => simp [lastMsg, hrest]
    | none =>
      simp only [lastMsg, hrest]
      rw [recLookup_jsObjSet]
      by_cases hfi : f = i.1
      · simp [hfi]
      · have : ¬(i.1 = f) := fun h => hfi h.symm
        simp [hfi, this]

/-- `recLookup` over the record built by the `validateInput` assignment loop
gives the last issue message recorded for the field. -/
theorem recLookup_buildErrors (f : String) (l : List (String × String)) :
    recLookup f (buildErrors l) = lastMsg f l := by
  unfold buildErrors
  rw [recLookup_foldl]
  cases lastMsg f l <;> simp [recLookup]

theorem lastMsg_append (f : String) (l1 l2 : List (String × String)) :
    lastMsg f (l1 ++ l2) =
      match lastMsg f l2 with
      | some m => some m
      | none => lastMsg f l1 := by
  induction l1 with
  | nil => cases h2 : lastMsg f l2 <;> simp [lastMsg, h2]
  | cons i rest ih =>
    simp only [List.cons_append, lastMsg, List.append_eq]
    rw [ih]
    cases h2 : lastMsg f l2 <;> cases hr : lastMsg f rest <;> simp [lastMsg, h2, hr]

theorem lastMsg_map_tag (f : String) (l : List String) :
    lastMsg f (l.map (fun m => (f, m))) = l.getLast? := by
  induction l using List.reverseRecOn with
  | nil => rfl
  | append_singleton l a ih =>
    rw [List.map_append, lastMsg_append, List.getLast?_concat]
    simp [lastMsg]

theorem lastMsg_map_tag_ne (f g : String) (l : List String) (hgf : g ≠ f) :
    lastMsg f (l.map (fun m => (g, m))) = none := by
  induction l with
  | nil => rfl
  | cons a rest ih => simp [lastMsg, ih, hgf]

/-- Claim C5 (counterexample): the input email `"Jo@Test.com "` with a trailing
space is rejected by `validateInput(signupSchema, ...)` with the
`"Invalid email format"` message instead of being accepted: the `.email()`
check runs on the raw input, before the `.toLowerCase()` and `.trim()`
overwrites.  The second conjunct records what normalization alone would have
produced. -/
theorem signup_email_trailing_space_rejected :
    validateSignup ⟨lit "Jo", lit "Jo@Test.com ", lit "Valid1@aa"⟩ =
      .err [("email", "Invalid email format")] ∧
    emailTransform (lit "Jo@Test.com ") = lit "jo@test.com" :=
  ⟨by decide, by decide⟩

/-- Claim C5 (amended): for every signup payload accepted by the validator, the
returned email is the lowercased-then-trimmed form of the input email and the
other fields pass through unchanged; but an input accepted by the email format
check never carries surrounding whitespace, and the claimed example input with
a trailing space is rejected rather than normalized. -/
theorem validateSignup_email_normalized (b d : SignupBody) (h : validateSignup b = .ok d) :
    d.email = jsTrim (jsToLowerCase b.email) ∧ d.name = b.name ∧ d.password = b.password := by
  unfold validateSignup validateInput at h
  split at h
  · cases h
    exact ⟨rfl, rfl, rfl⟩
  · cases h

/-- Witness for claim C5: the accepted payload with email `"JO@Test.com"`
yields the normalized email `"jo@test.com"`. -/
theorem validateSignup_email_normalized_witness :
    (lit "jo@test.com" : JsStr) = jsTrim (jsToLowerCase (lit "JO@Test.com")) ∧
    (lit "Jo" : JsStr) = lit "Jo" ∧ (lit "Valid1@aa" : JsStr) = lit "Valid1@aa" :=
  validateSignup_email_normalized
    ⟨lit "Jo", lit "JO@Test.com", lit "Valid1@aa"⟩
    ⟨lit "Jo", lit "jo@test.com", lit "Valid1@aa"⟩ (by decide)

/-- Claim C6 (counterexample): the password `"a"` violates the minimum-length
rule and three character-class rules at once, yet the error record delivered by
`validateInput` carries only the last failing rule for the `password` field;
the failing minimum-length rule is absent from the record. -/
theorem password_multiple_failures_collapsed :
    validateSignup ⟨lit "Jo", lit "jo@test.com", lit "a"⟩ =
      .err [("password", "Password must contain at least one special character (@$!%*?&)")] ∧
    "Password must be at least 8 characters long" ∈ passwordIssues (lit "a") ∧
    ("password", "Password must be at least 8 characters long") ∉
      buildErrors (signupIssues ⟨lit "Jo", lit "jo@test.com", lit "a"⟩) :=
  ⟨by decide, by decide, by decide⟩

/-- Claim C6 (amended): the zod schema aggregates all failing password rules as
issues, but the `errors[path] = issue.message` loop of `validateInput` keeps a
single message per field, so the error record maps `password` to the message of
the last failing rule in schema order, not to all failing rules. -/
theorem validateSignup_password_reports_last_rule (b : SignupBody)
    (errs : List (String × String)) (h : validateSignup b = .err errs) :
    recLookup "password" errs = (passwordIssues b.password).getLast? := by
  unfold validateSignup validateInput at h
  split at h
  · cases h
  · cases h
    rw [recLookup_buildErrors]
    unfold signupIssues
    rw [lastMsg_append, lastMsg_append, lastMsg_map_tag,
      lastMsg_map_tag_ne "password" "email" _ (by decide),
      lastMsg_map_tag_ne "password" "name" _ (by decide)]
    cases (passwordIssues b.password).getLast? <;> simp

/-- Witness for claim C6: a concrete failing signup body on which the theorem
applies. -/
theorem validateSignup_password_reports_last_rule_witness :
    recLookup "password"
        [("password", "Password must contain at least one special character (@$!%*?&)")] =
      (passwordIssues (lit "a")).getLast? :=
  validateSignup_password_reports_last_rule ⟨lit "Jo", lit "jo@test.com", lit "a"⟩
    [("password", "Password must contain at least one special character (@$!%*?&)")] (by decide)

/-! ## Response Envelope (src/src/lib/apiResponse.ts, src/src/lib/constants.ts) -/

namespace ERROR_MESSAGES

/-- `ERROR_MESSAGES.INVALID_CREDENTIALS` (src/src/lib/constants.ts). -/
def INVALID_CREDENTIALS : String := "Invalid email or password"

/-- `ERROR_MESSAGES.INTERNAL_SERVER_ERROR`. -/
def INTERNAL_SERVER_ERROR : String := "An error occurred while processing your request"

/-- `ERROR_MESSAGES.INVALID_INPUT`. -/
def INVALID_INPUT : String := "Invalid input data"

end ERROR_MESSAGES

namespace SUCCESS_MESSAGES

/-- `SUCCESS_MESSAGES.USER_CREATED`. -/
def USER_CREATED : String := "User created successfully"

/-- `SUCCESS_MESSAGES.LOGIN_SUCCESSFUL`. -/
def LOGIN_SUCCESSFUL : String := "Login successful"

end SUCCESS_MESSAGES

/-- Detail payloads attached by the error constructors: the
`{validationErrors}` object of `validationErrorResponse` and the
`{originalError}` object of `handleError`. -/
inductive ErrorDetails where
  | validationErrors (errors : List (String × String))
  | originalError (message : String)
deriving DecidableEq

/-- The error envelope `{success:false, error, code, status, details?, timestamp}`.
The constant `success:false` discriminant is carried by the surrounding
`ApiResponse.err` constructor. -/
structure ApiError where
  error : String
  code : String
  status : Nat
  details : Option ErrorDetails
  timestamp : String
deriving DecidableEq

/-- Embedding of `errorResponse(message, code, status, details)`: the `details`
member is spread into the envelope only when
`process.env.NODE_ENV === 'development'` (JSON serialization drops the member
otherwise), and an ISO timestamp is stamped (passed here as `now`). -/
def errorResponse (nodeEnv now message code : String) (status : Nat)
    (details : Option ErrorDetails) : ApiError :=
  { error := message, code := code, status := status,
    details := if nodeEnv = "development" then details else none,
    timestamp := now }

/-- Embedding of `validationErrorResponse(errors)`. -/
def validationErrorResponse (nodeEnv now : String)
    (errors : List (String × String)) : ApiError :=
  errorResponse nodeEnv now ERROR_MESSAGES.INVALID_INPUT "VALIDATION_ERROR" 400
    (some (ErrorDetails.validationErrors errors))

/-- Embedding of `unauthorizedResponse(message)`. -/
def unauthorizedResponse (nodeEnv now message : String) : ApiError :=
  errorResponse nodeEnv now message "UNAUTHORIZED" 401 none

/-- Embedding of `conflictResponse(message)`. -/
def conflictResponse (nodeEnv now message : String) : ApiError :=
  errorResponse nodeEnv now message "CONFLICT" 409 none

/-- Embedding of `handleError(error, context)`: logs server-side (not modelled)
and always returns the generic internal-error envelope, attaching the original
message as detail only in development mode. -/
def handleError (nodeEnv now errorMessage : String) : ApiError :=
  errorResponse nodeEnv now ERROR_MESSAGES.INTERNAL_SERVER_ERROR "INTERNAL_ERROR" 500
    (if nodeEnv = "development" then some (ErrorDetails.originalError errorMessage) else none)

/-- Claim C7 (counterexample): in `NODE_ENV = "test"` — one of the three
documented modes and not production — the validation error envelope carries no
details, so the details member is not attached "exactly when non-production";
it is attached only in development mode. -/
theorem validation_details_absent_in_test_mode :
    (validationErrorResponse "test" "T" [("email", "Invalid email format")]).details = none ∧
    "test" ≠ "production" ∧
    (validationErrorResponse "development" "T" [("email", "Invalid email format")]).details =
      some (ErrorDetails.validationErrors [("email", "Invalid email format")]) :=
  ⟨by decide, by decide, by decide⟩

/-- Claim C7 (amended): for every non-empty field-error record, the validation
error response has status 400, code VALIDATION_ERROR, the invalid-input
message, and carries the `{validationErrors}` detail object exactly when the
process runs in development mode (so never in production). -/
theorem validationErrorResponse_shape (nodeEnv now : String)
    (errors : List (String × String)) (hne : errors ≠ []) :
    (validationErrorResponse nodeEnv now errors).status = 400 ∧
    (validationErrorResponse nodeEnv now errors).code = "VALIDATION_ERROR" ∧
    (validationErrorResponse nodeEnv now errors).error = "Invalid input data" ∧
    ((validationErrorResponse nodeEnv now errors).details =
        some (ErrorDetails.validationErrors errors) ↔ nodeEnv = "development") := by
  refine ⟨rfl, rfl, rfl, ?_⟩
  unfold validationErrorResponse errorResponse
  by_cases h : nodeEnv = "development"
  · simp [h]
  · simp [h]

/-- Witness for claim C7 at a concrete non-empty error record in development
mode. -/
theorem validationErrorResponse_shape_witness :
    (validationErrorResponse "development" "T" [("email", "Invalid email format")]).status = 400 ∧
    (validationErrorResponse "development" "T" [("email", "Invalid email format")]).code =
      "VALIDATION_ERROR" ∧
    (validationErrorResponse "development" "T" [("email", "Invalid email format")]).error =
      "Invalid input data" ∧
    ((validationErrorResponse "development" "T" [("email", "Invalid email format")]).details =
        some (ErrorDetails.validationErrors [("email", "Invalid email format")]) ↔
      "development" = "development") :=
  validationErrorResponse_shape "development" "T" [("email", "Invalid email format")]
    (by decide)

/-! ## Token Issuer/Verifier (src/unnamed/part_004, with jsonwebtoken 9) -/

/-- Symbolic model of the signature jsonwebtoken attaches: verification
compares the recomputed pair (secret, payload), the standard symbolic
abstraction of an HMAC. -/
structure JwtSig where
  secret : String
  signed : JwtPayload
deriving DecidableEq

/-- A signed token value. -/
structure Token where
  payload : JwtPayload
  sig : JwtSig
deriving DecidableEq

/-- Seven days in seconds: the `'7d'` default `expiresIn` of `generateToken`
(`AUTH_CONFIG.TOKEN_EXPIRY`). -/
def SEVEN_DAYS : Nat := 604800

/-- Symbolic `jwt.sign(payload, secret, {expiresIn})`: stamps `iat = now` and
`exp = now + expiresIn`. -/
def jwtSign (secret : String) (id email : JsStr) (now expiresInSeconds : Nat) : Token :=
  { payload := { id := id, email := email, iat := some now,
                 exp := some (now + expiresInSeconds) },
    sig := { secret := secret,
             signed := { id := id, email := email, iat := some now,
                         exp := some (now + expiresInSeconds) } } }

/-- The two kinds of `JsonWebTokenError` distinguished by `verifyToken`:
`TokenExpiredError` and every other (malformed input or bad signature). -/
inductive JwtVerifyError where
  | tokenExpired
  | jsonWebTokenError
deriving DecidableEq

/-- Symbolic `jwt.verify(token, secret)`: checks the signature first, then
throws `TokenExpiredError` when the clock has reached `exp`. -/
def jwtVerify (secret : String) (now : Nat) (t : Token) : Except JwtVerifyError JwtPayload :=
  if t.sig = { secret := secret, signed := t.payload } then
    match t.payload.exp with
    | some e => if e ≤ now then .error .tokenExpired else .ok t.payload
    | none => .ok t.payload
  else
    .error .jsonWebTokenError

/-- Embedding of `generateToken(userId, email, expiresIn = '7d')`:
`getJwtSecret()` throws the configuration error when `JWT_SECRET` is unset
(the empty string), otherwise the token is signed. -/
def generateToken (jwtSecret : String) (now : Nat) (userId email : JsStr) :
    Except String Token :=
  if jwtSecret.isEmpty then
    .error "JWT_SECRET environment variable is not set. This is required for authentication."
  else
    .ok (jwtSign jwtSecret userId email now SEVEN_DAYS)

/-- Embedding of `verifyToken(token)`: its try/catch maps `TokenExpiredError`
to "Token has expired", any other `JsonWebTokenError` to "Invalid token", and a
non-JWT exception (such as the missing-secret configuration error thrown by
`getJwtSecret`) to "Token verification failed". -/
def verifyToken (jwtSecret : String) (now : Nat) (t : Token) : AuthResult :=
  if jwtSecret.isEmpty then
    { success := false, error := some "Token verification failed" }
  else
    match jwtVerify jwtSecret now t with
    | .ok payload => { success := true, user := some payload }
    | .error .tokenExpired => { success := false, error := some "Token has expired" }
    | .error .jsonWebTokenError => { success := false, error := some "Invalid token" }

/-- Claim C4: with the signing secret set, verifying a token immediately after
issuing it succeeds with the original id and email in the payload; verifying
the same token at or after the 7-day expiry fails with the expired reason and
not with a malformed or bad-signature reason. -/
theorem generateToken_verifyToken_roundtrip (jwtSecret : String) (id email : JsStr)
    (now later : Nat) (hsec : jwtSecret.isEmpty = false)
    (hlater : now + SEVEN_DAYS ≤ later) :
    ∃ tok, generateToken jwtSecret now id email = .ok tok ∧
      verifyToken jwtSecret now tok =
        { success := true,
          user := some { id := id, email := email, iat := some now,
                         exp := some (now + SEVEN_DAYS) },
          error := none } ∧
      verifyToken jwtSecret later tok =
        { success := false, user := none, error := some "Token has expired" } := by
  refine ⟨jwtSign jwtSecret id email now SEVEN_DAYS, ?_, ?_, ?_⟩
  · simp [generateToken, hsec]
  · have hlt : ¬(now + SEVEN_DAYS ≤ now) := by unfold SEVEN_DAYS; omega
    simp [verifyToken, jwtVerify, jwtSign, hsec, hlt]
  · simp [verifyToken, jwtVerify, jwtSign, hsec, hlater]

/-- Witness for claim C4 at a concrete secret, subject, and clock. -/
theorem generateToken_verifyToken_roundtrip_witness :
    ∃ tok, generateToken "topsecret" 0 (lit "u1") (lit "a@b.com") = .ok tok ∧
      verifyToken "topsecret" 0 tok =
        { success := true,
          user := some { id := lit "u1", email := lit "a@b.com", iat := some 0,
                         exp := some (0 + SEVEN_DAYS) },
          error := none } ∧
      verifyToken "topsecret" 604800 tok =
        { success := false, user := none, error := some "Token has expired" } :=
  generateToken_verifyToken_roundtrip "topsecret" (lit "u1") (lit "a@b.com") 0 604800
    (by decide) (by decide)

/-! ## Session Store: the useAuth hook (src/src/lib/useAuth.ts) -/

/-- The user summary stored client-side (`AuthUser`). -/
structure AuthUser where
  id : String
  email : String
  name : String
deriving DecidableEq

/-- The localStorage slice read by the hook: the `authToken` and `user` keys,
`none` when a key is absent. -/
structure LocalStore where
  authToken : Option String
  user : Option String
deriving DecidableEq

/-- The component state produced by the mount effect, together with the store
it leaves behind. -/
structure AuthState where
  token : Option String
  user : Option AuthUser
  store : LocalStore
deriving DecidableEq

/-- Embedding of the `useEffect` load in `useAuth`: `if (storedToken)` and
`if (storedUser)` are JavaScript truthiness tests (false for `null` and for the
empty string); `JSON.parse` is the parameter `parseUser`, whose failure is the
thrown `SyntaxError` consumed by the `catch` branch, which logs, removes the
`user` key, and leaves the state unset.  The function is total: no input makes
it propagate an exception. -/
def loadAuthState (parseUser : String → Except String AuthUser) (s : LocalStore) : AuthState :=
  let token : Option String :=
    match s.authToken with
    | some st => if st.isEmpty then none else some st
    | none => none
  match s.user with
  | none => { token := token, user := none, store := s }
  | some raw =>
    if raw.isEmpty then { token := token, user := none, store := s }
    else
      match parseUser raw with
      | .ok u => { token := token, user := some u, store := s }
      | .error _ => { token := token, user := none, store := { s with user := none } }

/-- `isAuthenticated: !!token && !!user` on the loaded state. -/
def isAuthenticated (a : AuthState) : Bool := a.token.isSome && a.user.isSome

/-- Claim C9: when the stored user summary fails to deserialize, the loaded
session state treats the summary as absent, `isAuthenticated` is false, the
`user` key is removed from the store, and (the embedding being a total
function on all inputs) no exception reaches the caller. -/
theorem loadAuthState_malformed_summary (parseUser : String → Except String AuthUser)
    (s : LocalStore) (raw e : String) (hstored : s.user = some raw)
    (hne : raw.isEmpty = false) (hfail : parseUser raw = .error e) :
    (loadAuthState parseUser s).user = none ∧
    (loadAuthState parseUser s).store = { s with user := none } ∧
    isAuthenticated (loadAuthState parseUser s) = false := by
  unfold loadAuthState
  rw [hstored]
  simp [hne, hfail, isAuthenticated]

/-- Witness for claim C9: a concrete store holding a non-empty summary the
parser rejects. -/
theorem loadAuthState_malformed_summary_witness :
    (loadAuthState (fun _ => .error "SyntaxError") ⟨some "tok", some "garbage"⟩).user = none ∧
    (loadAuthState (fun _ => .error "SyntaxError") ⟨some "tok", some "garbage"⟩).store =
      { (⟨some "tok", some "garbage"⟩ : LocalStore) with user := none } ∧
    isAuthenticated
        (loadAuthState (fun _ => .error "SyntaxError") ⟨some "tok", some "garbage"⟩) = false :=
  loadAuthState_malformed_summary (fun _ => .error "SyntaxError")
    ⟨some "tok", some "garbage"⟩ "garbage" "SyntaxError" rfl (by decide) rfl

/-! ## The auth route handlers (src/src/app/posts/page.tsx login POST,
src/src/app/api/auth/signup/route.ts signup POST, wrapped by
`withErrorHandling` from src/src/lib/routeHandler.ts) -/

/-- A stored credential record (`prisma.user` row): id, unique email, display
name, bcrypt password hash. -/
structure User where
  id : JsStr
  email : JsStr
  name : JsStr
  password : JsStr
deriving DecidableEq

/-- The public user object returned by the auth handlers:
`{id, email, name}`. -/
structure PublicUser where
  id : JsStr
  email : JsStr
  name : JsStr
deriving DecidableEq

/-- The success payload of the auth handlers: `{token, user}`. -/
structure AuthData where
  token : Token
  user : PublicUser
deriving DecidableEq

/-- A full API response: the success envelope
`{success:true, data, message, timestamp}` with its HTTP status, or the error
envelope. -/
inductive ApiResponse where
  | ok (data : AuthData) (message : String) (status : Nat) (timestamp : String)
  | err (e : ApiError)
deriving DecidableEq

/-- Embedding of the login `POST` handler wrapped by `withErrorHandling`:
validate, the `prisma.user.findUnique` email lookup (the parameter
`findUserByEmail`), `bcrypt.compare` (the parameter `bcryptCompare`), then
token issuance; the throw of `generateToken` on a missing secret is the only
modelled exception and is consumed by the `withErrorHandling` catch into
`handleError`. -/
def loginPOST (nodeEnv now : String) (jwtSecret : String) (time : Nat)
    (findUserByEmail : JsStr → Option User) (bcryptCompare : JsStr → JsStr → Bool)
    (body : LoginBody) : ApiResponse :=
  match validateLogin body with
  | .err errors => .err (validationErrorResponse nodeEnv now errors)
  | .ok data =>
    match findUserByEmail data.email with
    | none => .err (unauthorizedResponse nodeEnv now ERROR_MESSAGES.INVALID_CREDENTIALS)
    | some user =>
      if bcryptCompare data.password user.password then
        match generateToken jwtSecret time user.id user.email with
        | .error msg => .err (handleError nodeEnv now msg)
        | .ok token =>
          .ok { token := token, user := { id := user.id, email := user.email, name := user.name } }
            SUCCESS_MESSAGES.LOGIN_SUCCESSFUL 200 now
      else
        .err (unauthorizedResponse nodeEnv now ERROR_MESSAGES.INVALID_CREDENTIALS)

/-- Claim C3: for any login body that validates, whenever no stored user
matches the email, or a user exists but the password comparison fails, the
handler returns the same envelope
`{success:false, error:"Invalid email or password", code:"UNAUTHORIZED",
status:401}` — so the response does not reveal whether the email is
registered. -/
theorem login_indistinguishable_on_bad_credentials (nodeEnv now jwtSecret : String)
    (time : Nat) (findUserByEmail : JsStr → Option User)
    (bcryptCompare : JsStr → JsStr → Bool) (body : LoginBody) (data : LoginBody)
    (hval : validateLogin body = .ok data)
    (hpw : ∀ u, findUserByEmail data.email = some u →
      bcryptCompare data.password u.password = false) :
    loginPOST nodeEnv now jwtSecret time findUserByEmail bcryptCompare body =
      .err { error := "Invalid email or password", code := "UNAUTHORIZED", status := 401,
             details := none, timestamp := now } := by
  unfold loginPOST
  rw [hval]
  cases hfind : findUserByEmail data.email with
  | none =>
    simp [hfind, unauthorizedResponse, errorResponse, ERROR_MESSAGES.INVALID_CREDENTIALS]
  | some u =>
    simp [hfind, hpw u hfind, unauthorizedResponse, errorResponse,
      ERROR_MESSAGES.INVALID_CREDENTIALS]

/-- Witness for claim C3: a registered user with a non-matching password
comparison receives exactly the 401 envelope. -/
theorem login_indistinguishable_on_bad_credentials_witness :
    loginPOST "production" "T" "s" 0
        (fun _ => some ⟨lit "u1", lit "jo@test.com", lit "Jo", lit "storedhash"⟩)
        (fun _ _ => false) ⟨lit "jo@test.com", lit "wrongpw"⟩ =
      .err { error := "Invalid email or password", code := "UNAUTHORIZED", status := 401,
             details := none, timestamp := "T" } :=
  login_indistinguishable_on_bad_credentials "production" "T" "s" 0
    (fun _ => some ⟨lit "u1", lit "jo@test.com", lit "Jo", lit "storedhash"⟩)
    (fun _ _ => false) ⟨lit "jo@test.com", lit "wrongpw"⟩
    ⟨lit "jo@test.com", lit "wrongpw"⟩ (by decide) (fun u _ => rfl)

/-- The conflict message built by the signup pre-check:
`User with email "${email}" already exists. ...`. -/
def userExistsMsg (email : JsStr) : String :=
  "User with email \"" ++ String.mk email ++
    "\" already exists. Please try logging in or use a different email."

/-- The outcome of one `prisma.user.create` call as observed by a single
request: the created row, or a thrown error (such as the P2002
unique-constraint violation). -/
inductive CreateOutcome where
  | created (u : User)
  | thrown (errorMessage : String)
deriving DecidableEq

/-- Embedding of the signup `POST` handler wrapped by `withErrorHandling`:
validate, the `findUnique` pre-check (its observed result is `findResult`),
`conflictResponse` when a user exists, otherwise `bcrypt.hash` and
`prisma.user.create` (its observed outcome is `createResult`).  The handler
contains no `try`/`catch` of its own: a `thrown` create outcome propagates to
the `withErrorHandling` wrapper, which funnels it into `handleError`. -/
def signupPOST (nodeEnv now : String) (jwtSecret : String) (time : Nat)
    (findResult : Option User) (createResult : CreateOutcome)
    (body : SignupBody) : ApiResponse :=
  match validateSignup body with
  | .err errors => .err (validationErrorResponse nodeEnv now errors)
  | .ok data =>
    match findResult with
    | some _ => .err (conflictResponse nodeEnv now (userExistsMsg data.email))
    | none =>
      match createResult with
      | .thrown msg => .err (handleError nodeEnv now msg)
      | .created user =>
        match generateToken jwtSecret time user.id user.email with
        | .error msg => .err (handleError nodeEnv now msg)
        | .ok token =>
          .ok { token := token, user := { id := user.id, email := user.email, name := user.name } }
            SUCCESS_MESSAGES.USER_CREATED 201 now

/-- `prisma.user.findUnique({where: {email}})` against a store state. -/
def dbFindUnique (db : List User) (email : JsStr) : Option User :=
  db.find? (fun u => u.email == email)

/-- `prisma.user.create` against a store state enforcing the unique-email
constraint: a duplicate email makes the call throw (Prisma error P2002)
without changing the store. -/
def dbCreate (db : List User) (u : User) : CreateOutcome × List User :=
  if db.any (fun w => w.email == u.email) then
    (CreateOutcome.thrown "Unique constraint failed on the fields: (email)", db)
  else
    (CreateOutcome.created u, db ++ [u])

/-- The store interactions of two racing signup requests for the same email on
an empty store, under the interleaving find1, find2, create1, create2: both
pre-checks run before either insert, so both see no existing user; the first
insert succeeds and the second throws the constraint violation. -/
def raceOracle (u1 u2 : User) :
    (Option User × CreateOutcome) × (Option User × CreateOutcome) :=
  let db0 : List User := []
  let f1 := dbFindUnique db0 u1.email
  let f2 := dbFindUnique db0 u2.email
  let r1 := dbCreate db0 u1
  let r2 := dbCreate r1.2 u2
  ((f1, r1.1), (f2, r2.1))

/-- Claim C1: in the duplicate-email race (both pre-checks pass before either
create), the winning request receives the 201 success envelope, but the losing
request receives `{success:false, code:"INTERNAL_ERROR", status:500}` — the
handler does not catch the store's unique-constraint violation and map it to
the 409 CONFLICT envelope the claim and the specification require; the P2002
error falls through to `withErrorHandling`/`handleError`. -/
theorem signup_race_loser_gets_internal_error :
    (raceOracle ⟨lit "id1", lit "jo@test.com", lit "Jo", lit "h1"⟩
        ⟨lit "id2", lit "jo@test.com", lit "Jo", lit "h2"⟩).2.1 = none ∧
    signupPOST "production" "T" "s" 0
        (raceOracle ⟨lit "id1", lit "jo@test.com", lit "Jo", lit "h1"⟩
          ⟨lit "id2", lit "jo@test.com", lit "Jo", lit "h2"⟩).2.1
        (raceOracle ⟨lit "id1", lit "jo@test.com", lit "Jo", lit "h1"⟩
          ⟨lit "id2", lit "jo@test.com", lit "Jo", lit "h2"⟩).2.2
        ⟨lit "Jo", lit "jo@test.com", lit "Valid1@aa"⟩ =
      .err { error := "An error occurred while processing your request",
             code := "INTERNAL_ERROR", status := 500, details := none, timestamp := "T" } ∧
    signupPOST "production" "T" "s" 0
        (raceOracle ⟨lit "id1", lit "jo@test.com", lit "Jo", lit "h1"⟩
          ⟨lit "id2", lit "jo@test.com", lit "Jo", lit "h2"⟩).1.1
        (raceOracle ⟨lit "id1", lit "jo@test.com", lit "Jo", lit "h1"⟩
          ⟨lit "id2", lit "jo@test.com", lit "Jo", lit "h2"⟩).1.2
        ⟨lit "Jo", lit "jo@test.com", lit "Valid1@aa"⟩ =
      .ok { token := jwtSign "s" (lit "id1") (lit "jo@test.com") 0 SEVEN_DAYS,
            user := { id := lit "id1", email := lit "jo@test.com", name := lit "Jo" } }
        SUCCESS_MESSAGES.USER_CREATED 201 "T" ∧
    (conflictResponse "production" "T"
        (userExistsMsg (lit "jo@test.com"))).status = 409 :=
  ⟨by decide, by decide, by decide, by decide⟩
